import Mathlib

/-!
Verification of the access-control and credit/payment reconciliation core of
the Alauda API gateway (Eliobros/alauda-api), as a shallow embedding in Lean.

Sources embedded:
- `src/models/ApiKey.js` (credential store: validity, credits, counters),
- `src/middleware/auth.js` (access gate, first version in the file: key
  resolution, validity, credit check, daily quota, success/failure hooks),
- `src/config/constants.js` (plans, per-operation costs, error strings),
- `src/models/Payment.js` (payment record state machine),
- `src/unnamed/part_003` = `utils/paymentProcessor.js` (webhook ingestion,
  scheduled sweep, expiry sweep, credit conversion),
- `src/utils/generateKey.js` (`revokeApiKey`).

Times are naturals (milliseconds since epoch); calendar days (the unit the
code compares with `toDateString()`) are naturals passed separately as
`today`.  Mongoose documents become Lean structures; the database becomes
explicit `List` stores threaded through the functions; `throw` becomes
`Except.error`.  In the JS, every `throw` inside a modelled function happens
before that function's own writes, so `Except.error` leaving the stores
unchanged is faithful.  Usage-log writes, client IP and user-agent
bookkeeping touch no state any claim mentions and are omitted.
-/

namespace Alauda

/-- Plan tiers exactly as enumerated in `ApiKey.js` (`free < basic < pro <
premium`). -/
inductive Plan
  | free
  | basic
  | pro
  | premium
deriving DecidableEq, Repr

/-- Daily request ceiling per plan, from `constants.PLANS[*].requestsPerDay`.
`none` models the JS `Infinity` of the premium plan (every `>=` comparison
against it is false). -/
def Plan.requestsPerDay : Plan → Option Nat
  | .free => some 10
  | .basic => some 200
  | .pro => some 1000
  | .premium => none

/-- One entry of `rechargeHistory` in `ApiKey.js`. -/
structure Recharge where
  amount : Nat
  credits : Nat
  method : String
  reference : String
  date : Nat
deriving DecidableEq, Repr

/-- The credential document of `models/ApiKey.js` (fields the core logic
reads or writes). -/
structure ApiKey where
  key : String
  userId : String
  plan : Plan
  credits : Nat
  totalRequests : Nat
  successfulRequests : Nat
  failedRequests : Nat
  requestsToday : Nat
  lastRequestDate : Option Nat
  active : Bool
  suspended : Bool
  suspensionReason : Option String
  expiresAt : Option Nat
  rechargeHistory : List Recharge
deriving DecidableEq, Repr

/-- `apiKeySchema.methods.isValid`: active, not suspended, not past expiry
(`expiresAt && expiresAt < new Date()` fails the check). -/
def ApiKey.isValid (k : ApiKey) (now : Nat) : Bool :=
  if !k.active then false
  else if k.suspended then false
  else match k.expiresAt with
    | some e => if e < now then false else true
    | none => true

/-- `apiKeySchema.methods.hasCredits`: `credits >= amount`. -/
def ApiKey.hasCredits (k : ApiKey) (amount : Nat) : Bool :=
  amount ≤ k.credits

/-- `apiKeySchema.methods.consumeCredits`: throws on insufficient credits,
otherwise decrements the balance, bumps total/success counters, resets the
daily counter when the stored day differs from `today`, then increments it
and stamps the day. -/
def ApiKey.consumeCredits (k : ApiKey) (amount : Nat) (today : Nat) :
    Except String ApiKey :=
  if !(k.hasCredits amount) then .error "Créditos insuficientes"
  else
    let k1 := { k with
      credits := k.credits - amount,
      totalRequests := k.totalRequests + 1,
      successfulRequests := k.successfulRequests + 1 }
    let k2 := if k.lastRequestDate = some today then k1
              else { k1 with requestsToday := 0 }
    .ok { k2 with requestsToday := k2.requestsToday + 1,
                  lastRequestDate := some today }

/-- `apiKeySchema.methods.addCredits`: additive balance increment plus a
`rechargeHistory` entry. -/
def ApiKey.addCredits (k : ApiKey) (amount : Nat) (method reference : String)
    (now : Nat) : ApiKey :=
  { k with credits := k.credits + amount,
           rechargeHistory :=
             k.rechargeHistory ++ [⟨amount, amount, method, reference, now⟩] }

/-- `apiKeySchema.methods.recordFailure`: total/failed counters only; the
balance is untouched. -/
def ApiKey.recordFailure (k : ApiKey) : ApiKey :=
  { k with totalRequests := k.totalRequests + 1,
           failedRequests := k.failedRequests + 1 }

/-- `apiKeySchema.statics.findByKey`: `findOne({ key, active: true })` — the
lookup itself filters on `active`. -/
def findByKey (store : List ApiKey) (key : String) : Option ApiKey :=
  store.find? (fun k => k.key == key && k.active)

/-- Plain `ApiKey.findOne({ key })` as used by `Payment.processPayment`
(no `active` filter there). -/
def findKey (store : List ApiKey) (key : String) : Option ApiKey :=
  store.find? (fun k => k.key == key)

/-- Persist a mutated credential document: replace the entries with the same
`key` (the unique index makes at most one). -/
def updateKey (store : List ApiKey) (k : ApiKey) : List ApiKey :=
  store.map (fun x => if x.key == k.key then k else x)

/-- `generateKey.js` `revokeApiKey`: sets `active=false, suspended=true`
with the reason. -/
def revokeApiKey (k : ApiKey) (reason : String) : ApiKey :=
  { k with active := false, suspended := true,
           suspensionReason := some reason }

/-! Substring search, modelling JavaScript `String.prototype.includes`. -/

def strStarts : List Char → List Char → Bool
  | _, [] => true
  | [], _ :: _ => false
  | c :: cs, d :: ds => c == d && strStarts cs ds

def strIncludesL : List Char → List Char → Bool
  | [], sub => sub.isEmpty
  | c :: rest, sub => strStarts (c :: rest) sub || strIncludesL rest sub

def strIncludes (s sub : String) : Bool :=
  strIncludesL s.data sub.data

/-! Per-operation credit costs, `constants.COSTS`. -/

def COSTS_SHAZAM_IDENTIFY : Nat := 300
def COSTS_TIKTOK_INFO : Nat := 10
def COSTS_TIKTOK_DOWNLOAD : Nat := 100
def COSTS_TWITTER_DOWNLOAD : Nat := 100
def COSTS_SPOTIFY_SEARCH : Nat := 10
def COSTS_LYRICS_SEARCH : Nat := 50
def COSTS_SPOTIFY_DOWNLOAD : Nat := 50
def COSTS_REMOVE_BG : Nat := 10
def COSTS_YOUTUBE_INFO : Nat := 10
def COSTS_YOUTUBE_DOWNLOAD : Nat := 200
def COSTS_INSTAGRAM_DOWNLOAD : Nat := 150
def COSTS_STATUS_MENTION : Nat := 250
def COSTS_FACEBOOK_DOWNLOAD : Nat := 50
def COSTS_CPF_CONSULTA : Nat := 50
def COSTS_MPESA_VALIDATE : Nat := 10
def COSTS_EMOLA_VALIDATE : Nat := 10

/-- `getCreditsCost` from `middleware/auth.js` (the RapidAPI-aware version):
first matching `url.includes(...)` wins; unmapped routes default to 1. -/
def getCreditsCost (url : String) : Nat :=
  if strIncludes url "/tiktok/download" then COSTS_TIKTOK_DOWNLOAD
  else if strIncludes url "/tiktok/info" then COSTS_TIKTOK_INFO
  else if strIncludes url "/tiktok" then COSTS_TIKTOK_DOWNLOAD
  else if strIncludes url "/twitter" then COSTS_TWITTER_DOWNLOAD
  else if strIncludes url "/youtube/download" then COSTS_YOUTUBE_DOWNLOAD
  else if strIncludes url "/youtube/info" then COSTS_YOUTUBE_INFO
  else if strIncludes url "/youtube" then COSTS_YOUTUBE_DOWNLOAD
  else if strIncludes url "/instagram" then COSTS_INSTAGRAM_DOWNLOAD
  else if strIncludes url "/whatsapp" then COSTS_STATUS_MENTION
  else if strIncludes url "/spotify/search" then COSTS_SPOTIFY_SEARCH
  else if strIncludes url "/spotify/download" then COSTS_SPOTIFY_DOWNLOAD
  else if strIncludes url "/spotify" then COSTS_SPOTIFY_DOWNLOAD
  else if strIncludes url "/facebook" then COSTS_FACEBOOK_DOWNLOAD
  else if strIncludes url "/shazam" then COSTS_SHAZAM_IDENTIFY
  else if strIncludes url "/lyrics" then COSTS_LYRICS_SEARCH
  else if strIncludes url "/cpf" then COSTS_CPF_CONSULTA
  else if strIncludes url "/remove" then COSTS_REMOVE_BG
  else if strIncludes url "/payment/mpesa" then COSTS_MPESA_VALIDATE
  else if strIncludes url "/payment/emola" then COSTS_EMOLA_VALIDATE
  else 1

/-! Error strings, `constants.ERRORS`. -/

def ERRORS_NO_API_KEY : String := "API key não fornecida"
def ERRORS_INVALID_API_KEY : String := "API key inválida"
def ERRORS_EXPIRED_API_KEY : String := "API key expirada"
def ERRORS_INACTIVE_API_KEY : String := "API key desativada"
def ERRORS_NO_CREDITS : String := "Créditos esgotados. Recarregue sua conta."
def ERRORS_RATE_LIMIT : String :=
  "Limite de requisições atingido. Tente novamente mais tarde."

/-- Outcome of `authenticateApiKey` in `middleware/auth.js`.  The
constructors correspond to the HTTP responses 401, 403, 402, 429, and to
admission (key data and credit cost attached to the request). -/
inductive AuthResult
  | unauthenticated (error : String)
  | forbidden (error : String)
  | paymentRequired (creditsRemaining creditsNeeded : Nat)
  | tooManyRequests (dailyLimit requestsToday : Nat)
  | admitted (keyData : ApiKey) (creditsNeeded : Nat)
deriving DecidableEq, Repr

/-- The HTTP status code each `AuthResult` is sent with
(`constants.STATUS`). -/
def AuthResult.statusCode : AuthResult → Nat
  | .unauthenticated _ => 401
  | .forbidden _ => 403
  | .paymentRequired _ _ => 402
  | .tooManyRequests _ _ => 429
  | .admitted _ _ => 200

/-- `authenticateApiKey` (direct, non-RapidAPI path) from
`middleware/auth.js`: extract key, look it up (`findByKey` filters on
`active`), validate, check credits, then check the daily quota (resetting
the counter first when the stored day differs from `today`).  The admitted
result carries the key document with the possibly-reset counter, exactly as
the middleware attaches it to the request. -/
def authenticateApiKey (store : List ApiKey) (apiKey : Option String)
    (url : String) (now today : Nat) : AuthResult :=
  match apiKey with
  | none => .unauthenticated ERRORS_NO_API_KEY
  | some token =>
    match findByKey store token with
    | none => .unauthenticated ERRORS_INVALID_API_KEY
    | some keyData =>
      if !(keyData.isValid now) then
        .forbidden
          (if keyData.suspended then
            "API key suspensa: " ++ keyData.suspensionReason.getD "null"
          else if (match keyData.expiresAt with
                   | some e => decide (e < now)
                   | none => false) then ERRORS_EXPIRED_API_KEY
          else ERRORS_INACTIVE_API_KEY)
      else
        let creditsNeeded := getCreditsCost url
        if !(keyData.hasCredits creditsNeeded) then
          .paymentRequired keyData.credits creditsNeeded
        else
          let keyData := if keyData.lastRequestDate = some today then keyData
                         else { keyData with requestsToday := 0 }
          match keyData.plan.requestsPerDay with
          | some dailyLimit =>
            if dailyLimit ≤ keyData.requestsToday then
              .tooManyRequests dailyLimit keyData.requestsToday
            else .admitted keyData creditsNeeded
          | none => .admitted keyData creditsNeeded

/-! The payment record state machine, `models/Payment.js`. -/

/-- The `status` enum of `paymentSchema`. -/
inductive PStatus
  | pending
  | approved
  | rejected
  | cancelled
  | refunded
  | in_process
deriving DecidableEq, Repr

/-- The payment document of `models/Payment.js` (fields the core logic reads
or writes).  `apiKey` is the non-owning reference to the credential's key. -/
structure Payment where
  payment_id : String
  provider : String
  userId : String
  apiKey : String
  amount : Nat
  currency : String
  credits_to_add : Nat
  status : PStatus
  status_detail : Option String
  webhook_received : Bool
  processed : Bool
  processed_at : Option Nat
  credits_added : Bool
  credits_added_at : Option Nat
  approved_at : Option Nat
  expires_at : Option Nat
deriving DecidableEq, Repr

/-- `calculateCredits` from `utils/paymentProcessor.js`: credits per unit of
currency (MZN 10, BRL 100, USD 500, unknown currencies fall back to MZN);
with natural amounts the JS `Math.floor` is the identity. -/
def calculateCredits (amount : Nat) (currency : String) : Nat :=
  let rate : Nat :=
    if currency = "MZN" then 10
    else if currency = "BRL" then 100
    else if currency = "USD" then 500
    else 10
  amount * rate

/-- `paymentSchema.statics.createPayment` together with the schema defaults:
a fresh record is `pending`, unprocessed, uncredited, and expires 24 hours
(86400000 ms) after creation. -/
def createPaymentRecord (pid provider userId apiKey : String) (amount : Nat)
    (currency : String) (credits_to_add : Nat) (now : Nat) : Payment :=
  { payment_id := pid, provider := provider, userId := userId,
    apiKey := apiKey, amount := amount, currency := currency,
    credits_to_add := credits_to_add, status := .pending,
    status_detail := none, webhook_received := false, processed := false,
    processed_at := none, credits_added := false, credits_added_at := none,
    approved_at := none, expires_at := some (now + 86400000) }

/-- `paymentSchema.methods.approve`: unconditionally sets
`status='approved'`, stamps the approval time, and records the webhook
payload when one is passed (modelled by the `webhookData` flag).  Note that
it performs no check of the current status. -/
def Payment.approve (p : Payment) (webhookData : Bool) (now : Nat) :
    Payment :=
  let p := { p with status := .approved, approved_at := some now }
  if webhookData then { p with webhook_received := true } else p

/-- `paymentSchema.methods.isExpired`:
`expires_at && expires_at < new Date()`. -/
def Payment.isExpired (p : Payment) (now : Nat) : Bool :=
  match p.expires_at with
  | some e => decide (e < now)
  | none => false

/-- `paymentSchema.methods.canProcess`:
`status === 'approved' && !processed && !isExpired()`. -/
def Payment.canProcess (p : Payment) (now : Nat) : Bool :=
  decide (p.status = .approved) && !p.processed && !(p.isExpired now)

/-- The flag writes of `processPayment` after a successful credit grant. -/
def markProcessed (p : Payment) (now : Nat) : Payment :=
  { p with processed := true, processed_at := some now,
           credits_added := true, credits_added_at := some now }

/-- `paymentSchema.methods.processPayment`: fail fast on an already
processed record, fail when the status is not `approved`, look up the
credential with a plain `findOne({ key })`, fail when it is missing, then
grant `credits_to_add` via `addCredits` and set the processed/credited
flags.  Every `throw` happens before any write, so `Except.error` leaves
record and store untouched. -/
def Payment.processPayment (p : Payment) (store : List ApiKey) (now : Nat) :
    Except String (Payment × List ApiKey × Nat) :=
  if p.processed then .error "Pagamento já foi processado"
  else if !(decide (p.status = .approved)) then
    .error "Apenas pagamentos aprovados podem ser processados"
  else
    match findKey store p.apiKey with
    | none => .error "API Key não encontrada"
    | some apiKeyDoc =>
      let apiKeyDoc := apiKeyDoc.addCredits p.credits_to_add p.provider
        p.payment_id now
      .ok (markProcessed p now, updateKey store apiKeyDoc, apiKeyDoc.credits)

/-- `paymentSchema.methods.cancel`: unconditionally sets
`status='cancelled'`; the reason is written only when given. -/
def Payment.cancel (p : Payment) (reason : Option String) : Payment :=
  let p := { p with status := .cancelled }
  match reason with
  | some r => { p with status_detail := some r }
  | none => p

/-- `paymentSchema.methods.reject`: unconditionally sets
`status='rejected'`; the reason is written only when given. -/
def Payment.reject (p : Payment) (reason : Option String) : Payment :=
  let p := { p with status := .rejected }
  match reason with
  | some r => { p with status_detail := some r }
  | none => p

/-! The payment reconciler, `utils/paymentProcessor.js`. -/

/-- A MercadoPago webhook payload as read by the handler: its `type` and
`data.id`. -/
structure MPWebhook where
  type : String
  dataId : String
deriving DecidableEq, Repr

/-- The acknowledgment object the handlers return. -/
structure WebhookResult where
  success : Bool
  message : String
deriving DecidableEq, Repr

/-- `paymentSchema.statics.findByPaymentId` with a provider filter. -/
def findByPaymentId (ps : List Payment) (pid : String) (provider : String) :
    Option Payment :=
  ps.find? (fun p => p.payment_id == pid && p.provider == provider)

/-- Persist a mutated payment document: replace the entries with the same
`payment_id` (the unique index makes at most one). -/
def updatePayment (ps : List Payment) (p : Payment) : List Payment :=
  ps.map (fun x => if x.payment_id == p.payment_id then p else x)

/-- `processMercadoPagoWebhook`: ignore non-`payment` events, look the
record up by id and provider, acknowledge unknown ids, short-circuit on
`processed`, otherwise `approve` (persisted immediately) and then
`processPayment`.  A `processPayment` throw propagates, but the approval was
already saved — the returned stores reflect that. -/
def processMercadoPagoWebhook (w : MPWebhook) (ps : List Payment)
    (ks : List ApiKey) (now : Nat) :
    Except String WebhookResult × List Payment × List ApiKey :=
  if !(decide (w.type = "payment")) then
    (.ok ⟨false, "Tipo de evento não suportado"⟩, ps, ks)
  else
    match findByPaymentId ps w.dataId "mercadopago" with
    | none => (.ok ⟨false, "Pagamento não encontrado"⟩, ps, ks)
    | some payment =>
      if payment.processed then (.ok ⟨true, "Já processado"⟩, ps, ks)
      else
        let payment := payment.approve true now
        let ps := updatePayment ps payment
        if decide (payment.status = .approved) then
          match payment.processPayment ks now with
          | .ok (p2, ks2, _) =>
            (.ok ⟨true, "Pagamento processado e créditos adicionados"⟩,
              updatePayment ps p2, ks2)
          | .error e => (.error e, ps, ks)
        else (.ok ⟨true, "Status atualizado"⟩, ps, ks)

/-- Sequential redelivery of the same webhook payload `n` times. -/
def iterateMP (w : MPWebhook) (now : Nat) :
    Nat → List Payment × List ApiKey → List Payment × List ApiKey
  | 0, s => s
  | n + 1, (ps, ks) =>
    let r := processMercadoPagoWebhook w ps ks now
    iterateMP w now n (r.2.1, r.2.2)

/-- The filter of `paymentSchema.statics.findPendingToProcess`:
`status='approved'`, `processed=false`, `expires_at > now` (a Mongo `$gt`,
which a missing expiry does not match). -/
def pendingFilter (p : Payment) (now : Nat) : Bool :=
  decide (p.status = .approved) && !p.processed &&
    (match p.expires_at with
     | some e => decide (now < e)
     | none => false)

/-- Insertion step for the `sort({ approved_at: 1 })` of
`findPendingToProcess` (absent stamps sort first, as Mongo sorts nulls). -/
def insertByApproved (p : Payment) : List Payment → List Payment
  | [] => [p]
  | q :: rest =>
    if p.approved_at.getD 0 ≤ q.approved_at.getD 0 then p :: q :: rest
    else q :: insertByApproved p rest

/-- Ascending sort on `approved_at`. -/
def sortByApproved : List Payment → List Payment
  | [] => []
  | p :: rest => insertByApproved p (sortByApproved rest)

/-- `Payment.findPendingToProcess()`: the approved, unprocessed, unexpired
records, ordered by approval time. -/
def findPendingToProcess (ps : List Payment) (now : Nat) : List Payment :=
  sortByApproved (ps.filter (fun p => pendingFilter p now))

/-- The tally `processPendingPayments` returns. -/
structure SweepResult where
  total : Nat
  processed : Nat
  failed : Nat
deriving DecidableEq, Repr

/-- The loop body of `processPendingPayments`: each fetched record is
re-checked with `canProcess` and processed inside its own `try`; a throw is
counted in `failed` and the loop continues with the next record; a success
is counted in `processed` and its writes are persisted. -/
def sweepGo (now : Nat) :
    List Payment → List Payment → List ApiKey →
    (Nat × Nat) × List Payment × List ApiKey
  | [], ps, ks => ((0, 0), ps, ks)
  | p :: rest, ps, ks =>
    if p.canProcess now then
      match p.processPayment ks now with
      | .ok (p2, ks2, _) =>
        let r := sweepGo now rest (updatePayment ps p2) ks2
        ((r.1.1 + 1, r.1.2), r.2)
      | .error _ =>
        let r := sweepGo now rest ps ks
        ((r.1.1, r.1.2 + 1), r.2)
    else sweepGo now rest ps ks

/-- `processPendingPayments` (the scheduled reconciliation sweep): fetch the
ready records, attempt each one independently, and return the tally of
`total`/`processed`/`failed`. -/
def processPendingPayments (ps : List Payment) (ks : List ApiKey)
    (now : Nat) : SweepResult × List Payment × List ApiKey :=
  let fetched := findPendingToProcess ps now
  let r := sweepGo now fetched ps ks
  (⟨fetched.length, r.1.1, r.1.2⟩, r.2)

/-- `expireOldPayments` (the expiry sweep): every `pending` record whose
expiry has passed is bulk-updated to `cancelled` with the fixed reason;
returns `modifiedCount` and the updated store. -/
def expireOldPayments (ps : List Payment) (now : Nat) :
    Nat × List Payment :=
  let cond := fun (p : Payment) =>
    decide (p.status = .pending) &&
      (match p.expires_at with
       | some e => decide (e < now)
       | none => false)
  ((ps.filter cond).length,
    ps.map (fun p =>
      if cond p then
        { p with status := .cancelled,
                 status_detail := some "Pagamento expirado automaticamente" }
      else p))

/-!
Interleaving model of concurrent reconciliation, for the at-most-once
crediting claim.  One webhook invocation of the processing logic
(`processMercadoPagoWebhook` feeding `Payment.processPayment`) performs, in
order, these storage operations, each separated from the next by an `await`:

1. load the payment document (`findByPaymentId`) — the handler keeps an
   in-memory copy and tests `processed` on it;
2. if the copy's `processed` was true, stop (acknowledge as handled);
   otherwise write the approval fields (`approve` + `save`);
3. write the credit grant (`findOne` + `addCredits` + `save` on the
   credential — the balance increment, re-read fresh from the store);
4. write the processed/credited flags (`markProcessed` + `save`;
   per Mongoose only the dirty paths are written).

Invocations running concurrently interleave these atomic operations freely.
`grants` is a ghost counter of `addCredits` executions.
-/

/-- The shared storage state seen by all concurrent invocations, plus the
ghost grant counter. -/
structure RecState where
  payment : Payment
  keydoc : ApiKey
  grants : Nat
deriving DecidableEq, Repr

/-- Program counter of one invocation of the webhook processing logic. -/
inductive RPC
  | start
  | loaded (localProcessed : Bool)
  | granting
  | marking
  | halted (didGrant : Bool)
deriving DecidableEq, Repr

/-- One atomic storage operation of one invocation (see the module comment
above for the correspondence with the source). -/
inductive RStep (now : Nat) : RecState → RPC → RecState → RPC → Prop
  | load (g : RecState) :
      RStep now g .start g (.loaded g.payment.processed)
  | shortCircuit (g : RecState) :
      RStep now g (.loaded true) g (.halted false)
  | approveWrite (g : RecState) :
      RStep now g (.loaded false)
        { g with payment := g.payment.approve true now } .granting
  | grantWrite (g : RecState) :
      RStep now g .granting
        { g with
          keydoc := g.keydoc.addCredits g.payment.credits_to_add
            g.payment.provider g.payment.payment_id now,
          grants := g.grants + 1 } .marking
  | markWrite (g : RecState) :
      RStep now g .marking
        { g with payment := markProcessed g.payment now } (.halted true)

/-- N concurrently running invocations: the shared state plus each
invocation's program counter. -/
def RSys : Type := RecState × List RPC

/-- One step of the whole system: some invocation performs its next atomic
operation. -/
inductive RSysStep (now : Nat) : RSys → RSys → Prop
  | mk (g g' : RecState) (pre post : List RPC) (a a' : RPC) :
      RStep now g a g' a' →
      RSysStep now (g, pre ++ a :: post) (g', pre ++ a' :: post)

/-! Per-request accounting against one credential: the success and failure
callbacks `req.logSuccess` / `req.logError` of `middleware/auth.js` call
`consumeCredits(creditsNeeded)` and `recordFailure()` respectively. -/

/-- Which of the two callbacks a given admitted request invoked. -/
inductive CallOutcome
  | success
  | failure
deriving DecidableEq, Repr

/-- Run a sequence of admitted requests, each given as its credit cost and
the callback it fired.  `logSuccess` consumes the credits (which throws on
an insufficient balance); `logError` records the failure only. -/
def runCalls (today : Nat) : ApiKey → List (Nat × CallOutcome) →
    Except String ApiKey
  | k, [] => .ok k
  | k, (cost, CallOutcome.success) :: rest =>
    match k.consumeCredits cost today with
    | .ok k2 => runCalls today k2 rest
    | .error e => .error e
  | k, (_, CallOutcome.failure) :: rest =>
    runCalls today k.recordFailure rest

/-- Sum of the costs of the requests whose on-success callback fired. -/
def sumSuccessCosts : List (Nat × CallOutcome) → Nat
  | [] => 0
  | (c, CallOutcome.success) :: rest => c + sumSuccessCosts rest
  | (_, CallOutcome.failure) :: rest => sumSuccessCosts rest

/-- Number of requests whose on-success callback fired. -/
def countSuccess : List (Nat × CallOutcome) → Nat
  | [] => 0
  | (_, CallOutcome.success) :: rest => countSuccess rest + 1
  | (_, CallOutcome.failure) :: rest => countSuccess rest

/-- Number of requests whose on-failure callback fired. -/
def countFailure : List (Nat × CallOutcome) → Nat
  | [] => 0
  | (_, CallOutcome.success) :: rest => countFailure rest
  | (_, CallOutcome.failure) :: rest => countFailure rest + 1

/-- A freshly issued credential document with the schema defaults of
`ApiKey.js` (plan `free`, active, not suspended, zero counters), used to
build concrete instances. -/
def mkKey (key userId : String) (credits : Nat) : ApiKey :=
  { key := key, userId := userId, plan := .free, credits := credits,
    totalRequests := 0, successfulRequests := 0, failedRequests := 0,
    requestsToday := 0, lastRequestDate := none, active := true,
    suspended := false, suspensionReason := none, expiresAt := none,
    rechargeHistory := [] }

/-! Concrete scenario for the free-plan quota claim: one credential on plan
`free` with 100 credits, hitting `/api/v1/tiktok/info` (cost 10), all on
day 7. -/

/-- The scenario credential: plan `free`, starting balance 100. -/
def c3Key : ApiKey := mkKey "alauda-c3" "u-c3" 100

def c3Url : String := "/api/v1/tiktok/info"

/-- One full gated call in the scenario: authenticate, and on admission run
the route to success (`logSuccess`, i.e. `consumeCredits`) and persist. -/
def c3Call (store : List ApiKey) : AuthResult × List ApiKey :=
  match authenticateApiKey store (some "alauda-c3") c3Url 1000 7 with
  | .admitted k c =>
    match k.consumeCredits c 7 with
    | .ok k2 => (.admitted k c, updateKey store k2)
    | .error _ => (.admitted k c, store)
  | r => (r, store)

/-- The credential store after `n` such calls. -/
def c3After : Nat → List ApiKey
  | 0 => [c3Key]
  | n + 1 => (c3Call (c3After n)).2

/-! Concrete instances for the remaining claims. -/

/-- Whether an `Except` value is a success. -/
def exOk {ε α : Type} : Except ε α → Bool
  | .ok _ => true
  | .error _ => false

/-- An approved, unprocessed MercadoPago payment record for 500 credits
(the state the at-most-once-crediting claim quantifies over). -/
def c1Payment : Payment :=
  { payment_id := "mp-1", provider := "mercadopago", userId := "u-1",
    apiKey := "k-1", amount := 50, currency := "MZN", credits_to_add := 500,
    status := .approved, status_detail := none, webhook_received := false,
    processed := false, processed_at := none, credits_added := false,
    credits_added_at := none, approved_at := some 50,
    expires_at := some 86400000 }

/-- The credential the record credits, balance 100. -/
def c1Key : ApiKey := mkKey "k-1" "u-1" 100

/-- Two invocations of the processing logic about to run concurrently
against the same record. -/
def c1Init : RSys := (⟨c1Payment, c1Key, 0⟩, [RPC.start, RPC.start])

/-- Payment document after invocation A's approval write. -/
def c1PayA : Payment := c1Payment.approve true 100

/-- After invocation A's flag write. -/
def c1PayAM : Payment := markProcessed c1PayA 100

/-- After invocation B's approval write (B still holds its stale copy). -/
def c1PayB : Payment := c1PayAM.approve true 100

/-- After invocation B's flag write. -/
def c1PayBM : Payment := markProcessed c1PayB 100

/-- Credential after invocation A's grant. -/
def c1KeyA : ApiKey :=
  c1Key.addCredits c1PayA.credits_to_add c1PayA.provider c1PayA.payment_id
    100

/-- Credential after invocation B's second grant. -/
def c1KeyAB : ApiKey :=
  c1KeyA.addCredits c1PayB.credits_to_add c1PayB.provider c1PayB.payment_id
    100

/-- Terminal system state of the interleaving in which both invocations
loaded the record before either marked it processed. -/
def c1Final : RSys :=
  (⟨c1PayBM, c1KeyAB, 2⟩, [RPC.halted true, RPC.halted true])

/-- An already-processed MercadoPago record (credits already granted). -/
def c2Payment : Payment :=
  { c1Payment with
    payment_id := "mp-2", apiKey := "k-2", userId := "u-2",
    processed := true, processed_at := some 60, credits_added := true,
    credits_added_at := some 60, webhook_received := true }

/-- Its credential after the one grant: balance 600. -/
def c2Key : ApiKey := mkKey "k-2" "u-2" 600

/-- The same MercadoPago webhook payload, redelivered. -/
def c2Hook : MPWebhook := ⟨"payment", "mp-2"⟩

/-- A pending 50 MZN payment (500 credits) created at time 0, so expiring
at 86400000. -/
def c4Pending : Payment :=
  createPaymentRecord "mp-77" "mercadopago" "u-77" "k-77" 50 "MZN"
    (calculateCredits 50 "MZN") 0

def c4Key : ApiKey := mkKey "k-77" "u-77" 100

/-- The store after the expiry sweep runs past the record's expiry. -/
def c4Swept : List Payment := (expireOldPayments [c4Pending] 100000000).2

/-- A late provider webhook for the swept record. -/
def c4Result : Except String WebhookResult × List Payment × List ApiKey :=
  processMercadoPagoWebhook ⟨"payment", "mp-77"⟩ c4Swept [c4Key] 200000000

/-- A pending payment that will be approved and processed. -/
def c5Start : Payment :=
  createPaymentRecord "mp-5" "mercadopago" "u-5" "k-5" 50 "MZN" 500 0

def c5Key : ApiKey := mkKey "k-5" "u-5" 100

def c5Approved : Payment := c5Start.approve true 10

/-- The processing run reaching the processed state. -/
def c5Run : Except String (Payment × List ApiKey × Nat) :=
  c5Approved.processPayment [c5Key] 10

/-- The record in its processed state (reached by create → approve →
processPayment). -/
def c5Processed : Payment :=
  match c5Run with
  | .ok (q, _, _) => q
  | .error _ => c5Approved

/-- The implication `credits_added ⇒ processed` of the spec's invariant
chain, as a predicate on payment records. -/
def invCA (p : Payment) : Prop := p.credits_added = true → p.processed = true

def c6Key : ApiKey := mkKey "alauda-c6" "u-c6" 100

def c6Calls : List (Nat × CallOutcome) :=
  [(10, .success), (5, .failure), (20, .success)]

/-- The credential after running those calls. -/
def c6End : ApiKey :=
  match runCalls 3 c6Key c6Calls with
  | .ok k => k
  | .error _ => c6Key

/-- The guard exactly as the spec words it: `status == approved ∧
¬processed ∧ now < expiry` (strictly before the expiry).  Stated from the
spec, to be compared with the source's `Payment.canProcess`. -/
def specCanProcess (p : Payment) (now : Nat) : Prop :=
  p.status = .approved ∧ p.processed = false ∧
    ∃ e, p.expires_at = some e ∧ now < e

/-- An approved, unprocessed record expiring exactly at time 100. -/
def c7Payment : Payment :=
  { c1Payment with payment_id := "mp-7", expires_at := some 100 }

def c9Key : ApiKey := mkKey "alauda-c9" "u-c9" 100

/-- An approved, unprocessed record whose credential key matches nothing. -/
def c10Payment : Payment :=
  { c1Payment with
    payment_id := "mp-10", apiKey := "k-gone", userId := "u-10" }

set_option maxRecDepth 8000

/-!
Theorems settling the claims.
-/

/-- C1 (code bug): the claim demands that N-way concurrent invocations of
the processing logic against one approved/unprocessed record grant credits
exactly once.  The check-then-set on `processed` in
`processMercadoPagoWebhook`/`processPayment` spans several awaited storage
operations with no conditional update, so the interleaving in which both
invocations load the record before either marks it processed is reachable
and performs TWO `addCredits` grants: from `c1Init` (balance 100, record
worth 500 credits) the system reaches a terminal state, both invocations
halted, with `grants = 2` and balance 1100. -/
theorem C1_double_grant_reachable :
    Relation.ReflTransGen (RSysStep 100) c1Init c1Final ∧
    c1Final.1.grants = 2 ∧
    c1Final.1.keydoc.credits =
      c1Key.credits + 2 * c1Payment.credits_to_add ∧
    c1Final.1.payment.processed = true ∧
    c1Final.2 = [RPC.halted true, RPC.halted true] := by
  refine ⟨?_, by decide, by decide, by decide, by decide⟩
  exact Relation.ReflTransGen.head
      (RSysStep.mk _ _ [] [RPC.start] _ _ (RStep.load _)) <|
    Relation.ReflTransGen.head
      (RSysStep.mk _ _ [RPC.loaded false] [] _ _ (RStep.load _)) <|
    Relation.ReflTransGen.head
      (RSysStep.mk _ _ [] [RPC.loaded false] _ _ (RStep.approveWrite _)) <|
    Relation.ReflTransGen.head
      (RSysStep.mk _ _ [] [RPC.loaded false] _ _ (RStep.grantWrite _)) <|
    Relation.ReflTransGen.head
      (RSysStep.mk _ _ [] [RPC.loaded false] _ _ (RStep.markWrite _)) <|
    Relation.ReflTransGen.head
      (RSysStep.mk _ _ [RPC.halted true] [] _ _ (RStep.approveWrite _)) <|
    Relation.ReflTransGen.head
      (RSysStep.mk _ _ [RPC.halted true] [] _ _ (RStep.grantWrite _)) <|
    Relation.ReflTransGen.head
      (RSysStep.mk _ _ [RPC.halted true] [] _ _ (RStep.markWrite _))
    Relation.ReflTransGen.refl

/-- C2 (confirmed): once a record is `processed=true`, feeding the
webhook-ingestion function the same payload any number of times
acknowledges it as already handled (`success=true`, message
"Já processado") and leaves both the payment store and the credential
store — hence the owning credential's balance — completely unchanged. -/
theorem C2_replayed_webhook_is_noop (w : MPWebhook) (ps : List Payment)
    (ks : List ApiKey) (now : Nat) (p : Payment)
    (hw : w.type = "payment")
    (hf : findByPaymentId ps w.dataId "mercadopago" = some p)
    (hp : p.processed = true) :
    processMercadoPagoWebhook w ps ks now =
      (.ok ⟨true, "Já processado"⟩, ps, ks) ∧
    ∀ n, iterateMP w now n (ps, ks) = (ps, ks) := by
  have h1 : processMercadoPagoWebhook w ps ks now =
      (.ok ⟨true, "Já processado"⟩, ps, ks) := by
    simp [processMercadoPagoWebhook, hw, hf, hp]
  refine ⟨h1, ?_⟩
  intro n
  induction n with
  | zero => rfl
  | succ n ih => simp [iterateMP, h1, ih]

/-- C2 witness: the processed 500-credit record with its balance-600
credential; three redeliveries change nothing. -/
theorem C2_replayed_webhook_is_noop_witness :
    processMercadoPagoWebhook c2Hook [c2Payment] [c2Key] 9 =
      (.ok ⟨true, "Já processado"⟩, [c2Payment], [c2Key]) ∧
    iterateMP c2Hook 9 3 ([c2Payment], [c2Key]) = ([c2Payment], [c2Key]) := by
  have h := C2_replayed_webhook_is_noop c2Hook [c2Payment] [c2Key] 9
    c2Payment rfl (by decide) rfl
  exact ⟨h.1, h.2 3⟩

/-- C3 counterexample: in the spec's scenario (plan `free`, 100 credits,
ten successful cost-10 calls leaving balance 0 and today-count 10), the
eleventh call is answered with `paymentRequired` (HTTP 402, remaining 0,
needed 10), not with the claimed `tooManyRequests`/QuotaExceeded (429):
`authenticateApiKey` checks credits at step 4, before the quota at
step 5. -/
theorem C3_eleventh_call_rejected_402 :
    (c3Call (c3After 10)).1 = AuthResult.paymentRequired 0 10 ∧
    (c3Call (c3After 10)).1.statusCode = 402 ∧
    (c3Call (c3After 10)).1.statusCode ≠ 429 := by decide

/-- C3 amended: nine successful calls leave balance 10 and today-count 9;
the tenth is admitted with the balance exactly equal to the cost, leaving
balance 0 and today-count 10; the eleventh call is rejected with
InsufficientCredit/PaymentRequired (402, remaining 0, needed 10) — not
QuotaExceeded — because the credit check precedes the quota check; the
rejected call mutates nothing. -/
theorem C3_amended_quota_after_credit_check :
    ((c3After 9).map (fun k => (k.credits, k.requestsToday)) = [(10, 9)]) ∧
    ((c3Call (c3After 9)).1.statusCode = 200) ∧
    ((c3After 10).map (fun k => (k.credits, k.requestsToday)) = [(0, 10)]) ∧
    ((c3Call (c3After 10)).1 = .paymentRequired 0 10) ∧
    ((c3Call (c3After 10)).2 = c3After 10) := by decide

/-- C4 counterexample: a pending record created at time 0 (expiry
86400000) is moved to `cancelled` with reason "Pagamento expirado
automaticamente" by the expiry sweep at time 100000000 — yet a late
MercadoPago webhook at time 200000000 re-approves it (`cancelled →
approved`, a backward transition) and grants its 500 credits: the
credential's balance rises from 100 to 600. -/
theorem C4_late_webhook_reapproves_cancelled :
    ((expireOldPayments [c4Pending] 100000000).1 = 1) ∧
    (c4Swept.map (fun p => (p.status, p.status_detail)) =
      [(PStatus.cancelled, some "Pagamento expirado automaticamente")]) ∧
    (c4Result.2.1.map (fun p => (p.status, p.processed, p.credits_added)) =
      [(PStatus.approved, true, true)]) ∧
    (c4Result.2.2.map (fun k => k.credits) = [600]) := by decide

/-- C4 amended: status transitions are not guarded — `approve` sets
`status=approved` unconditionally from ANY state (so a cancelled-by-expiry
record is re-approved, and credited, by a late webhook, as the
counterexample computes); only the `processed` flag is monotonic, since
approve/cancel/reject never touch it. -/
theorem C4_amended_unguarded_transitions (p : Payment) (w : Bool)
    (now : Nat) (r : Option String) :
    ((p.approve w now).status = .approved) ∧
    ((p.approve w now).processed = p.processed ∧
     (p.cancel r).processed = p.processed ∧
     (p.reject r).processed = p.processed) := by
  cases w <;> cases r <;>
    simp [Payment.approve, Payment.cancel, Payment.reject]

/-- C5 counterexample: a record reached by create → approve →
processPayment (so `processed=true`, `credits_added=true`,
`status=approved`) is then cancelled; `cancel` overwrites the status
unconditionally, leaving `processed=true ∧ credits_added=true ∧
status=cancelled` — the claimed chain `processed ⇒ status=approved` is not
preserved by cancel-after-processing. -/
theorem C5_cancel_after_processing_breaks_chain :
    exOk c5Run = true ∧
    c5Processed.processed = true ∧ c5Processed.credits_added = true ∧
    c5Processed.status = PStatus.approved ∧
    (c5Processed.cancel (some "cancelado")).processed = true ∧
    (c5Processed.cancel (some "cancelado")).credits_added = true ∧
    (c5Processed.cancel (some "cancelado")).status = PStatus.cancelled := by
  decide

/-- C5 amended: the first implication `credits_added ⇒ processed` is
preserved by every operation; a successful `processPayment` sets both
flags together and never changes `credits_to_add`; no operation mutates
`credits_to_add` or resets `processed`; and once `processed=true`,
`processPayment` fails fast, so crediting is never re-triggered.  The
second implication `processed ⇒ status=approved`, however, is NOT
preserved by cancel/reject applied after processing (see the
counterexample). -/
theorem C5_amended_processed_invariants (p : Payment) (w : Bool)
    (now : Nat) (r : Option String) (ks : List ApiKey) :
    (invCA p → invCA (p.approve w now) ∧ invCA (p.cancel r) ∧
      invCA (p.reject r)) ∧
    (∀ q ks2 b, p.processPayment ks now = .ok (q, ks2, b) →
      invCA q ∧ q.credits_to_add = p.credits_to_add ∧ q.processed = true) ∧
    (p.approve w now).credits_to_add = p.credits_to_add ∧
    (p.cancel r).credits_to_add = p.credits_to_add ∧
    (p.reject r).credits_to_add = p.credits_to_add ∧
    ((p.approve w now).processed = p.processed ∧
     (p.cancel r).processed = p.processed ∧
     (p.reject r).processed = p.processed) ∧
    (p.processed = true →
      p.processPayment ks now = .error "Pagamento já foi processado") := by
  refine ⟨?_, ?_, ?_, ?_, ?_, ⟨?_, ?_, ?_⟩, ?_⟩
  · intro h
    refine ⟨?_, ?_, ?_⟩ <;> cases w <;> cases r <;>
      simpa [invCA, Payment.approve, Payment.cancel, Payment.reject] using h
  · intro q ks2 b h
    unfold Payment.processPayment at h
    split at h
    · exact absurd h (by simp)
    · split at h
      · exact absurd h (by simp)
      · split at h
        · exact absurd h (by simp)
        · simp only [Except.ok.injEq, Prod.mk.injEq] at h
          obtain ⟨hq, -⟩ := h
          subst hq
          simp [invCA, markProcessed]
  · cases w <;> simp [Payment.approve]
  · cases r <;> simp [Payment.cancel]
  · cases r <;> simp [Payment.reject]
  · cases w <;> simp [Payment.approve]
  · cases r <;> simp [Payment.cancel]
  · cases r <;> simp [Payment.reject]
  · intro h
    simp [Payment.processPayment, h]

/-- C5 amended, witness: at the concrete processed record, reprocessing
fails fast with the idempotency error. -/
theorem C5_amended_processed_invariants_witness :
    c5Processed.processPayment [] 3 =
      .error "Pagamento já foi processado" :=
  (C5_amended_processed_invariants c5Processed true 3 none []).2.2.2.2.2.2
    (by decide)

/-- Helper for C6: a successful `consumeCredits` decrements the balance by
exactly the amount and bumps total/success counters, leaving the failure
counter alone. -/
theorem consumeCredits_ok {k k2 : ApiKey} {c today : Nat}
    (h : k.consumeCredits c today = .ok k2) :
    k2.credits + c = k.credits ∧ k2.totalRequests = k.totalRequests + 1 ∧
    k2.successfulRequests = k.successfulRequests + 1 ∧
    k2.failedRequests = k.failedRequests := by
  unfold ApiKey.consumeCredits at h
  by_cases hc : k.hasCredits c
  · rw [hc] at h
    simp only [Bool.not_true, Bool.false_eq_true, if_false,
      Except.ok.injEq] at h
    have hle : c ≤ k.credits := by
      simpa [ApiKey.hasCredits, decide_eq_true_eq] using hc
    subst h
    by_cases hd : k.lastRequestDate = some today <;>
      simp [hd] <;> omega
  · simp only [Bool.not_eq_true] at hc
    rw [hc] at h
    simp at h

/-- C6 (confirmed): running any sequence of admitted requests on one
credential, where each request fires exactly one of `logSuccess`
(`consumeCredits`) or `logError` (`recordFailure`), ends with the balance
equal to the initial balance minus the sum of the costs of exactly the
successful requests; failed requests only bump total/failed counters and
never decrement the balance. -/
theorem C6_balance_accounting (today : Nat) :
    ∀ (calls : List (Nat × CallOutcome)) (k k2 : ApiKey),
      runCalls today k calls = .ok k2 →
      k2.credits + sumSuccessCosts calls = k.credits ∧
      k2.totalRequests = k.totalRequests + calls.length ∧
      k2.successfulRequests = k.successfulRequests + countSuccess calls ∧
      k2.failedRequests = k.failedRequests + countFailure calls := by
  intro calls
  induction calls with
  | nil =>
    intro k k2 h
    simp only [runCalls, Except.ok.injEq] at h
    subst h
    simp [sumSuccessCosts, countSuccess, countFailure]
  | cons hd rest ih =>
    obtain ⟨cost, oc⟩ := hd
    cases oc with
    | success =>
      intro k k2 h
      simp only [runCalls] at h
      cases hc : k.consumeCredits cost today with
      | error e => rw [hc] at h; simp at h
      | ok kmid =>
        rw [hc] at h
        simp only [] at h
        have hm := consumeCredits_ok hc
        have hr := ih kmid k2 h
        simp only [sumSuccessCosts, countSuccess, countFailure,
          List.length_cons]
        omega
    | failure =>
      intro k k2 h
      simp only [runCalls] at h
      have hr := ih k.recordFailure k2 h
      simp only [sumSuccessCosts, countSuccess, countFailure,
        List.length_cons, ApiKey.recordFailure] at hr ⊢
      omega

/-- C6 witness: success 10, failure 5, success 20 from balance 100 end at
balance 70, with counters 3/2/1. -/
theorem C6_balance_accounting_witness :
    c6End.credits + sumSuccessCosts c6Calls = c6Key.credits ∧
    c6End.totalRequests = c6Key.totalRequests + c6Calls.length ∧
    c6End.successfulRequests = c6Key.successfulRequests +
      countSuccess c6Calls ∧
    c6End.failedRequests = c6Key.failedRequests + countFailure c6Calls :=
  C6_balance_accounting 3 c6Calls c6Key c6End rfl

/-- C7 counterexample: at the exact expiry instant (`now = expiry = 100`)
the source's `canProcess` still returns true (`isExpired` demands
`expiry < now` strictly), while the claimed guard requires `now < expiry`
and so is false there. -/
theorem C7_canProcess_true_at_expiry_instant :
    c7Payment.canProcess 100 = true ∧ ¬ specCanProcess c7Payment 100 := by
  refine ⟨by decide, ?_⟩
  rintro ⟨-, -, e, he, hlt⟩
  have h100 : c7Payment.expires_at = some 100 := rfl
  rw [h100] at he
  injection he with h
  omega

/-- C7 amended: `canProcess` is true iff `status = approved ∧ ¬processed`
and the current time is not strictly past the expiry (`now ≤ expiry`,
with a record lacking an expiry never counting as expired). -/
theorem C7_amended_canProcess_iff (p : Payment) (now : Nat) :
    p.canProcess now = true ↔
      (p.status = .approved ∧ p.processed = false ∧
        ∀ e, p.expires_at = some e → now ≤ e) := by
  unfold Payment.canProcess Payment.isExpired
  cases hx : p.expires_at with
  | none => simp
  | some e =>
    simp only [Bool.and_eq_true, decide_eq_true_eq, Bool.not_eq_true',
      decide_eq_false_iff_not, Option.some.injEq]
    constructor
    · rintro ⟨⟨h1, h2⟩, h3⟩
      refine ⟨h1, h2, ?_⟩
      intro e2 he2
      cases he2
      omega
    · rintro ⟨h1, h2, h3⟩
      have := h3 e rfl
      refine ⟨⟨h1, h2⟩, by omega⟩

/-- C7 amended, witness: the boundary record itself at its expiry
instant. -/
theorem C7_amended_canProcess_iff_witness :
    c7Payment.canProcess 100 = true ↔
      (c7Payment.status = .approved ∧ c7Payment.processed = false ∧
        ∀ e, c7Payment.expires_at = some e → 100 ≤ e) :=
  C7_amended_canProcess_iff c7Payment 100

/-- Helper for C8: over any fetched batch, `processed + failed` counts
exactly the records passing `canProcess` — a throw on one record is
counted and the loop continues, whatever the threaded stores are. -/
theorem sweepGo_tally (now : Nat) :
    ∀ (l ps : List Payment) (ks : List ApiKey),
      (sweepGo now l ps ks).1.1 + (sweepGo now l ps ks).1.2 =
        (l.filter (fun p => p.canProcess now)).length := by
  intro l
  induction l with
  | nil => intro ps ks; simp [sweepGo]
  | cons p rest ih =>
    intro ps ks
    cases hc : p.canProcess now with
    | false => simp [sweepGo, hc, ih]
    | true =>
      cases hpp : p.processPayment ks now with
      | ok v =>
        obtain ⟨p2, ks2, b⟩ := v
        have := ih (updatePayment ps p2) ks2
        simp [sweepGo, hc, hpp, List.filter_cons]
        omega
      | error e =>
        have := ih ps ks
        simp [sweepGo, hc, hpp, List.filter_cons]
        omega

/-- C8 (confirmed): the scheduled sweep returns a tally whose `total` is
the size of the fetched batch and whose `processed + failed` equals the
number of fetched records that passed `canProcess` — every record is
attempted and every per-record failure is caught and counted rather than
aborting the batch; `processed + failed` never exceeds `total`. -/
theorem C8_sweep_tally (ps : List Payment) (ks : List ApiKey) (now : Nat) :
    ((processPendingPayments ps ks now).1.total =
      (findPendingToProcess ps now).length) ∧
    ((processPendingPayments ps ks now).1.processed +
        (processPendingPayments ps ks now).1.failed =
      ((findPendingToProcess ps now).filter
        (fun p => p.canProcess now)).length) ∧
    ((processPendingPayments ps ks now).1.processed +
        (processPendingPayments ps ks now).1.failed ≤
      (processPendingPayments ps ks now).1.total) := by
  have h1 : (processPendingPayments ps ks now).1.total =
      (findPendingToProcess ps now).length := rfl
  have h2 : (processPendingPayments ps ks now).1.processed +
      (processPendingPayments ps ks now).1.failed =
      ((findPendingToProcess ps now).filter
        (fun p => p.canProcess now)).length := by
    simpa [processPendingPayments] using
      sweepGo_tally now (findPendingToProcess ps now) ps ks
  refine ⟨h1, h2, ?_⟩
  rw [h1, h2]
  exact List.length_filter_le _ _

/-- C9 (confirmed): when every stored credential bearing a token is
inactive (as revoked credentials are: `revokeApiKey` sets `active=false,
suspended=true`), a request presenting that token fails at resolution
with the 401 invalid-key error, because `findByKey` filters on
`active=true`; the 403 suspended/expired branch is therefore never
reached for inactive credentials. -/
theorem C9_inactive_key_resolution_fails_401 (store : List ApiKey)
    (token url : String) (now today : Nat)
    (h : ∀ k ∈ store, k.key = token → k.active = false) :
    authenticateApiKey store (some token) url now today =
      .unauthenticated ERRORS_INVALID_API_KEY := by
  have hf : findByKey store token = none := by
    apply List.find?_eq_none.mpr
    intro x hx
    intro hcontra
    rw [Bool.and_eq_true, beq_iff_eq] at hcontra
    obtain ⟨h1, h2⟩ := hcontra
    rw [h x hx h1] at h2
    exact Bool.false_ne_true h2
  simp [authenticateApiKey, hf]

/-- C9 witness: a credential revoked via `revokeApiKey` (so suspended with
a reason, which would produce a 403 message were it reached) still yields
the 401 invalid-key response. -/
theorem C9_inactive_key_resolution_fails_401_witness :
    authenticateApiKey [revokeApiKey c9Key "abuso"] (some "alauda-c9")
      "/api/v1/tiktok/info" 5 5 =
      .unauthenticated ERRORS_INVALID_API_KEY :=
  C9_inactive_key_resolution_fails_401 _ _ _ _ _ (by decide)

/-- C10 (confirmed): processing an approved, unprocessed, unexpired record
whose stored credential key matches no credential throws "API Key não
encontrada" before any write — and the sweep over that record counts one
failure while leaving the record exactly as it was (still
approved/unprocessed, so later sweeps fetch it again until its expiry
passes) and the credential store untouched. -/
theorem C10_missing_credential_error_no_mutation (p : Payment)
    (ks : List ApiKey) (now e : Nat)
    (hst : p.status = .approved) (hpr : p.processed = false)
    (hk : findKey ks p.apiKey = none)
    (hexp : p.expires_at = some e) (hlt : now < e) :
    p.processPayment ks now = .error "API Key não encontrada" ∧
    processPendingPayments [p] ks now = (⟨1, 0, 1⟩, [p], ks) := by
  have hpp : p.processPayment ks now = .error "API Key não encontrada" := by
    simp [Payment.processPayment, hpr, hst, hk]
  have hfilter : pendingFilter p now = true := by
    simp [pendingFilter, hst, hpr, hexp]
    omega
  have hcan : p.canProcess now = true := by
    simp [Payment.canProcess, Payment.isExpired, hst, hpr, hexp]
    omega
  refine ⟨hpp, ?_⟩
  simp [processPendingPayments, findPendingToProcess, List.filter_cons,
    hfilter, sortByApproved, insertByApproved, sweepGo, hcan, hpp]

/-- C10 witness: the concrete dangling-key record against an empty
credential store. -/
theorem C10_missing_credential_error_no_mutation_witness :
    c10Payment.processPayment [] 5 = .error "API Key não encontrada" ∧
    processPendingPayments [c10Payment] [] 5 =
      (⟨1, 0, 1⟩, [c10Payment], []) :=
  C10_missing_credential_error_no_mutation c10Payment [] 5 86400000
    rfl rfl rfl rfl (by decide)

end Alauda
